import Mathlib

/-!
Shallow embedding of `src/renderer/store/matchmaking.store.ts` (BAR Lobby
matchmaking store): the session state machine, the asset-readiness resolver
and the download orchestrator.

Modelling conventions:
* The reactive store object is the record `MatchmakingStore`; every handler
  and request function is a pure state transformer on it.
* `await window.tachyon.request(...)` outcomes and the fallible
  `db.maps.bulkGet` query are passed in explicitly (`Bool` success flags,
  `Except Unit` results).
* JS fractional download progress is represented in integer hundredths:
  the stored value `v : Nat` models the source value `v / 100`, so the
  source increments `0.08 / 0.12 / 0.06` become `8 / 12 / 6` and full
  progress `1` becomes `100`.
* Notifications emitted via `notificationsApi.alert` are collected in a
  returned list.
-/

/-- `MatchmakingStatus` enum (source lines 29-35). -/
inductive MatchmakingStatus where
  | Idle
  | JoinRequested
  | Searching
  | MatchFound
  | MatchAccepted
deriving DecidableEq, Repr

/-- Engine descriptor: the `{ version }` shape used by playlists and battles. -/
structure EngineSpec where
  version : String
deriving DecidableEq, Repr

/-- Game descriptor: the `{ springName }` shape used by playlists and battles. -/
structure GameSpec where
  springName : String
deriving DecidableEq, Repr

/-- Map descriptor used by a battle: `{ springName }`. -/
structure MapSpec where
  springName : String
deriving DecidableEq, Repr

/-- Playlist map entry: `{ mapName }` as consumed by `checkIfAnyMapsAreNeeded`. -/
structure MapNameEntry where
  mapName : String
deriving DecidableEq, Repr

/-- The fields of `PrivateBattle` that the store reads or constructs
(see the dummy battle literal at source lines 315-329). -/
structure PrivateBattle where
  username : String
  password : String
  ip : String
  port : Nat
  engine : EngineSpec
  game : GameSpec
  map : MapSpec
deriving DecidableEq, Repr

/-- The fields of a playlist that the store consumes. -/
structure Playlist where
  id : String
  name : String
  maps : List MapNameEntry
  engines : List EngineSpec
  games : List GameSpec
deriving DecidableEq, Repr

/-- A record of the local map database (`db.maps`): only `isInstalled` is read. -/
structure DbMap where
  isInstalled : Bool
deriving DecidableEq, Repr

/-- One entry of `matchmakingStore.downloadsRequired` (source lines 49-57). -/
structure ReadinessRecord where
  mapsNeeded : Bool
  engineNeeded : Bool
  gameNeeded : Bool
  engineVersion : String
  gameVersion : String
deriving DecidableEq, Repr

/-- `matchmakingStore.downloadProgress`, in integer hundredths (100 = done). -/
structure DownloadProgressState where
  map : Nat
  engine : Nat
  game : Nat
deriving DecidableEq, Repr

/-- An entry of `enginesStore.availableEngineVersions`: only `id` is read. -/
structure EngineVersionEntry where
  id : String
deriving DecidableEq, Repr

/-- The reactive `matchmakingStore` state (source lines 37-85).
`downloadsRequired` is the keyed object, modelled as an association list in
insertion order. -/
structure MatchmakingStore where
  isInitialized : Bool
  isDrawerOpen : Bool
  status : MatchmakingStatus
  errorMessage : Option String
  selectedQueue : String
  playlists : List Playlist
  isLoadingQueues : Bool
  queueError : Option String
  playersQueued : Nat
  playersReady : Nat
  downloadsRequired : List (String × ReadinessRecord)
  currentBattle : Option PrivateBattle
  isDownloadingContent : Bool
  downloadProgress : DownloadProgressState
deriving DecidableEq, Repr

/-- The initial store value (source lines 66-85). -/
def matchmakingStore : MatchmakingStore where
  isInitialized := false
  isDrawerOpen := false
  status := MatchmakingStatus.Idle
  errorMessage := none
  selectedQueue := "1v1"
  playlists := []
  isLoadingQueues := false
  queueError := none
  playersQueued := 0
  playersReady := 0
  downloadsRequired := []
  currentBattle := none
  isDownloadingContent := false
  downloadProgress := { map := 0, engine := 0, game := 0 }

/-- External collaborators of the readiness checks: the fallible
`db.maps.bulkGet` query, `enginesStore.availableEngineVersions` and
`gameStore.availableGameVersions` (a set of spring names, modelled as a
list with membership via `contains`). -/
structure InventoryEnv where
  bulkGet : List String → Except Unit (List (Option DbMap))
  availableEngineVersions : List EngineVersionEntry
  availableGameVersions : List String

/-- `checkIfAnyMapsAreNeeded` (source lines 279-288): empty/absent list means
not needed; otherwise `bulkGet` the map names and return `true` as soon as
one entry is `undefined` or not installed. The `bulkGet` rejection is the
`Except.error` path. -/
def checkIfAnyMapsAreNeeded (inv : InventoryEnv) (maps : List MapNameEntry) :
    Except Unit Bool :=
  if maps.isEmpty then Except.ok false
  else
    let queueMaps := maps.map (fun m => m.mapName)
    match inv.bulkGet queueMaps with
    | Except.error e => Except.error e
    | Except.ok dbMaps =>
      Except.ok (dbMaps.any (fun m =>
        match m with
        | none => true
        | some r => !r.isInstalled))

/-- `checkIfEngineIsNeeded` (source lines 290-295): needed iff none of the
required versions occurs among the installed engine version ids. -/
def checkIfEngineIsNeeded (inv : InventoryEnv) (engines : List EngineSpec) : Bool :=
  if engines.isEmpty then false
  else
    let requiredVersions := engines.map (fun e => e.version)
    let installedVersions := inv.availableEngineVersions.map (fun v => v.id)
    !(requiredVersions.any (fun required => installedVersions.contains required))

/-- `checkIfGameIsNeeded` (source lines 297-301): needed iff none of the
required spring names is an available game version. -/
def checkIfGameIsNeeded (inv : InventoryEnv) (games : List GameSpec) : Bool :=
  if games.isEmpty then false
  else
    let requiredGames := games.map (fun g => g.springName)
    !(requiredGames.any (fun required => inv.availableGameVersions.contains required))

/-- Whether the local map database reports `name` as installed (an entry
exists and `isInstalled` is true). Used to state the spec's "already
installed" disjunction. -/
def mapInstalledInDb (db : String → Option DbMap) (name : String) : Bool :=
  match db name with
  | some r => r.isInstalled
  | none => false

/-- A `bulkGet` backed by a total in-memory database that never fails:
returns the looked-up rows in query order, `none` for absent keys. -/
def okBulkGet (db : String → Option DbMap) :
    List String → Except Unit (List (Option DbMap)) :=
  fun names => Except.ok (names.map db)

-- Concrete inventory for the C1 counterexample: map "alpha" is installed,
-- every other map is absent from the database.
def exDb : String → Option DbMap :=
  fun n => if n == "alpha" then some { isInstalled := true } else none

def exMapsInv : InventoryEnv where
  bulkGet := okBulkGet exDb
  availableEngineVersions := []
  availableGameVersions := []

def exMapList : List MapNameEntry := [{ mapName := "alpha" }, { mapName := "beta" }]

example : checkIfAnyMapsAreNeeded exMapsInv exMapList = Except.ok true := rfl
example : exMapList.any (fun m => mapInstalledInDb exDb m.mapName) = true := rfl

/-- Lookup in the `downloadsRequired` association list (object key access). -/
def lookupRecord (m : List (String × ReadinessRecord)) (k : String) :
    Option ReadinessRecord :=
  (m.find? (fun p => p.1 == k)).map (fun p => p.2)

/-- One `Promise.all` callback body of `sendListRequest` (source lines
255-267): run the three readiness checks for a queue and build its record;
`none` when the map query rejected, in which case the callback throws and
writes no record. The preferred versions are the first acceptable entries. -/
def resolveQueue (inv : InventoryEnv) (queue : Playlist) : Option ReadinessRecord :=
  match checkIfAnyMapsAreNeeded inv queue.maps with
  | Except.error _ => none
  | Except.ok mapsNeeded =>
    some { mapsNeeded := mapsNeeded
           engineNeeded := checkIfEngineIsNeeded inv queue.engines
           gameNeeded := checkIfGameIsNeeded inv queue.games
           engineVersion := ((queue.engines.head?).map (fun e => e.version)).getD ""
           gameVersion := ((queue.games.head?).map (fun g => g.springName)).getD "" }

/-- The records written into `downloadsRequired` by the `Promise.all`
callbacks, in playlist order (one admissible completion order): each
callback whose queries succeed writes `(queue.id, record)`; a callback whose
map query rejected writes nothing. -/
def resolveRecords (inv : InventoryEnv) (playlists : List Playlist) :
    List (String × ReadinessRecord) :=
  (playlists.map (fun q => (q.id, resolveQueue inv q))).filterMap
    (fun pr => pr.2.map (fun r => (pr.1, r)))

/-- `sendListRequest` (source lines 240-277) as a state transformer. The
`matchmaking/list` response is passed in as `listResponse`. On success the
playlists are stored, the selected queue is defaulted, `downloadsRequired`
is cleared and repopulated from the per-queue callbacks; if any callback
threw, `Promise.all` rejects and the catch block sets `queueError` (the
records of the callbacks that completed remain written, since the
individual promises are not cancelled). The final state after everything
settles is returned. -/
def sendListRequest (listResponse : Except Unit (List Playlist))
    (inv : InventoryEnv) (s : MatchmakingStore) : MatchmakingStore :=
  let s := { s with isLoadingQueues := true, queueError := none }
  match listResponse with
  | Except.error _ =>
    { s with queueError := some "Failed to retrieve available queues"
             isLoadingQueues := false }
  | Except.ok playlists =>
    let s := { s with playlists := playlists }
    let hasSelectedQueue := playlists.any (fun playlist => playlist.id == s.selectedQueue)
    let selectedQueue :=
      if playlists.length > 0 && !hasSelectedQueue then
        ((playlists.head?).map (fun p => p.id)).getD s.selectedQueue
      else s.selectedQueue
    let s := { s with selectedQueue := selectedQueue }
    let results := playlists.map (fun q => (q.id, resolveQueue inv q))
    let anyCallbackFailed := results.any (fun pr => pr.2.isNone)
    { s with downloadsRequired := resolveRecords inv playlists
             queueError :=
               if anyCallbackFailed then some "Failed to retrieve available queues"
               else none
             isLoadingQueues := false }

/-- The successive values of `downloadsRequired` observable between the
clear (source line 253) and the completion of the `Promise.all`, for the
completion order in which the callbacks finish in playlist order: the
cleared empty object, then one more record after each callback write. -/
def sendListRequestSnapshots (inv : InventoryEnv) (playlists : List Playlist) :
    List (List (String × ReadinessRecord)) :=
  (List.range ((resolveRecords inv playlists).length + 1)).map
    (fun k => (resolveRecords inv playlists).take k)

/-- DEV/TEST FLAG of the source (line 27): simulate asset downloads. -/
def testAssetDownload : Bool := true

/-- Notification severity of `notificationsApi.alert`. -/
inductive Severity where
  | info
  | error
deriving DecidableEq, Repr

/-- A notification emitted via `notificationsApi.alert`. -/
structure Notification where
  text : String
  severity : Severity
deriving DecidableEq, Repr

/-- The success alert of `downloadBattleContent` (source lines 179 and 229). -/
def successAlert : Notification where
  text := "Battle content downloaded. Ready to launch!"
  severity := Severity.info

/-- The failure alert of `downloadBattleContent` (source lines 182 and 232). -/
def failureAlert : Notification where
  text := "Failed to download required content for battle"
  severity := Severity.error

/-- The unconditional first three statements of `downloadBattleContent`
(source lines 136-138), which run synchronously on invocation: store the
battle, raise the active-episode flag, zero the progress. -/
def downloadStart (battle : PrivateBattle) (s : MatchmakingStore) : MatchmakingStore :=
  { s with currentBattle := some battle
           isDownloadingContent := true
           downloadProgress := { map := 0, engine := 0, game := 0 } }

/-- One tick of the simulated-download interval (source lines 156-165), in
hundredths: map +8 (0.08), engine +12 (0.12), game +6 (0.06), each capped
at 100 (`Math.min(_, 1)`). -/
def simTick (p : DownloadProgressState) : DownloadProgressState where
  map := min (p.map + 8) 100
  engine := min (p.engine + 12) 100
  game := min (p.game + 6) 100

/-- The simulated progress after `k` ticks, starting from all-zero. -/
def simProgressAt : Nat → DownloadProgressState
  | 0 => { map := 0, engine := 0, game := 0 }
  | k + 1 => simTick (simProgressAt k)

/-- The resolution condition of the simulated interval (source line 168):
all three progress values have reached 1 (= 100 hundredths). -/
def simDone (p : DownloadProgressState) : Bool :=
  p.map == 100 && p.engine == 100 && p.game == 100

/-- `simulateProgress` (source lines 149-174) run for at most `fuel` ticks:
each tick advances all three values and checks the resolution condition;
`none` means the interval had not yet resolved. -/
def simulateProgress (fuel : Nat) (p : DownloadProgressState) :
    Option DownloadProgressState :=
  match fuel with
  | 0 => none
  | fuel + 1 =>
    let p := simTick p
    if simDone p then some p else simulateProgress fuel p

/-- The progress state at which the simulated interval resolves. The game
value is the slowest (+6 per tick), so resolution happens at tick 17, the
first tick at which all three values are 100. -/
def simFinalProgress : DownloadProgressState := simProgressAt 17

example : simulateProgress 17 { map := 0, engine := 0, game := 0 } = some simFinalProgress := rfl

/-- The simulated branch of `downloadBattleContent` (source lines 141-187),
from the state right after `downloadStart`: the awaited `simulateProgress`
never rejects, so the try-branch always completes, leaving the resolved
progress in the store, dropping the active-episode flag in the `finally`,
and emitting the success alert. -/
def downloadSimulated (s : MatchmakingStore) : MatchmakingStore × List Notification :=
  ({ s with downloadProgress := simFinalProgress, isDownloadingContent := false },
   [successAlert])

/-- Success or failure of the three awaited real downloads
(`downloadMap`, `downloadEngine`, `downloadGame`). -/
structure TaskOutcomes where
  mapOk : Bool
  engineOk : Bool
  gameOk : Bool
deriving DecidableEq, Repr

/-- The real branch of `downloadBattleContent` (source lines 217-237), from
the state right after `downloadStart`: the three downloads are awaited in
sequence, setting the corresponding progress field to 1 (=100) after each;
the first rejection jumps to the catch block, which emits the failure alert;
on full success the success alert is emitted; either way the `finally`
drops the active-episode flag. -/
def downloadReal (oc : TaskOutcomes) (s : MatchmakingStore) :
    MatchmakingStore × List Notification :=
  if !oc.mapOk then ({ s with isDownloadingContent := false }, [failureAlert])
  else
    let s := { s with downloadProgress := { s.downloadProgress with map := 100 } }
    if !oc.engineOk then ({ s with isDownloadingContent := false }, [failureAlert])
    else
      let s := { s with downloadProgress := { s.downloadProgress with engine := 100 } }
      if !oc.gameOk then ({ s with isDownloadingContent := false }, [failureAlert])
      else
        let s := { s with downloadProgress := { s.downloadProgress with game := 100 } }
        ({ s with isDownloadingContent := false }, [successAlert])

/-- `downloadBattleContent` (source lines 135-238), run to completion:
the unconditional prologue, then the branch selected by the
`testAssetDownload` flag. Returns the settled store and the emitted
notifications. -/
def downloadBattleContent (oc : TaskOutcomes) (battle : PrivateBattle)
    (s : MatchmakingStore) : MatchmakingStore × List Notification :=
  let s := downloadStart battle s
  if testAssetDownload then downloadSimulated s
  else downloadReal oc s

/-- Asset kind tag of the real branch's progress listeners. -/
inductive AssetType where
  | map
  | engine
  | game
deriving DecidableEq, Repr

/-- The `DownloadInfo` payload of a progress event: asset name and fractional
progress (in hundredths here). -/
structure DownloadInfo where
  name : String
  progress : Nat
deriving DecidableEq, Repr

/-- `createProgressListener` (source lines 194-200): if the event's name
matches the battle's asset of this type, store the reported progress
verbatim in the corresponding field; otherwise ignore the event. -/
def createProgressListener (battle : PrivateBattle) (type : AssetType)
    (downloadInfo : DownloadInfo) (s : MatchmakingStore) : MatchmakingStore :=
  if downloadInfo.name == (match type with
      | AssetType.map => battle.map.springName
      | AssetType.engine => battle.engine.version
      | AssetType.game => battle.game.springName) then
    { s with downloadProgress :=
        match type with
        | AssetType.map => { s.downloadProgress with map := downloadInfo.progress }
        | AssetType.engine => { s.downloadProgress with engine := downloadInfo.progress }
        | AssetType.game => { s.downloadProgress with game := downloadInfo.progress } }
  else s

/-- The `user` field of a `user/self` event: only `currentBattle` is read. -/
structure UserSelf where
  currentBattle : Option PrivateBattle
deriving DecidableEq, Repr

/-- Payload of a `user/self` event. -/
structure UserSelfEventData where
  user : UserSelf
deriving DecidableEq, Repr

/-- `onQueueUpdateEvent` (source lines 87-90). -/
def onQueueUpdateEvent (playersQueued : Nat) (s : MatchmakingStore) : MatchmakingStore :=
  { s with playersQueued := playersQueued }

/-- `onLostEvent` (source lines 92-95). -/
def onLostEvent (s : MatchmakingStore) : MatchmakingStore :=
  { s with status := MatchmakingStatus.Searching }

/-- `onFoundUpdateEvent` (source lines 97-100). -/
def onFoundUpdateEvent (readyCount : Nat) (s : MatchmakingStore) : MatchmakingStore :=
  { s with playersReady := readyCount }

/-- `onCancelledEvent` (source lines 102-105): only the status is reset. -/
def onCancelledEvent (s : MatchmakingStore) : MatchmakingStore :=
  { s with status := MatchmakingStatus.Idle }

/-- `onFoundEvent` (source lines 107-115). -/
def onFoundEvent (s : MatchmakingStore) : MatchmakingStore :=
  { s with status := MatchmakingStatus.MatchFound }

/-- `onQueuesJoinedEvent` (source lines 117-120). -/
def onQueuesJoinedEvent (s : MatchmakingStore) : MatchmakingStore :=
  { s with status := MatchmakingStatus.Searching }

/-- `onUserSelfEvent` (source lines 122-133): when the event carries a
battle and the status is `MatchAccepted`, invoke `downloadBattleContent`.
The returned number counts the orchestrator invocations (download episodes
started) by this delivery: 1 or 0. -/
def onUserSelfEvent (oc : TaskOutcomes) (data : UserSelfEventData)
    (s : MatchmakingStore) : MatchmakingStore × Nat :=
  match data.user.currentBattle with
  | some battle =>
    if s.status = MatchmakingStatus.MatchAccepted then
      ((downloadBattleContent oc battle s).1, 1)
    else (s, 0)
  | none => (s, 0)

/-- Sequential delivery of a list of `user/self` events, summing the number
of download episodes started. -/
def processUserSelfEvents (oc : TaskOutcomes) :
    List UserSelfEventData → MatchmakingStore → MatchmakingStore × Nat
  | [], s => (s, 0)
  | d :: rest, s =>
    let r := onUserSelfEvent oc d s
    let rr := processUserSelfEvents oc rest r.1
    (rr.1, r.2 + rr.2)

/-- The hard-coded test battle that `sendQueueRequest` downloads before
joining the queue (source lines 315-329). -/
def dummyBattle : PrivateBattle where
  username := "string"
  password := "string"
  ip := "string"
  port := 0
  engine := { version := "" }
  game := { springName := "" }
  map := { springName := "" }

/-- `sendQueueRequest` (source lines 308-342): with no readiness record for
the selected queue, alert and re-run `sendListRequest`; otherwise start the
test download of `dummyBattle` (not awaited), optimistically enter
`JoinRequested`, clear the error message, and settle to `Searching` on
request success or roll back to `Idle` with an error message on failure.
`queueOk` is the `matchmaking/queue` request outcome. The download episode
races with the request but touches disjoint fields, so the settled state
is order-independent. -/
def sendQueueRequest (listResponse : Except Unit (List Playlist))
    (inv : InventoryEnv) (oc : TaskOutcomes) (queueOk : Bool)
    (s : MatchmakingStore) : MatchmakingStore :=
  if (lookupRecord s.downloadsRequired s.selectedQueue).isNone then
    sendListRequest listResponse inv s
  else
    let s := (downloadBattleContent oc dummyBattle s).1
    let s := { s with status := MatchmakingStatus.JoinRequested, errorMessage := none }
    if queueOk then { s with status := MatchmakingStatus.Searching }
    else { s with status := MatchmakingStatus.Idle
                  errorMessage := some "Error with matchmaking/queue" }

/-- `sendCancelRequest` (source lines 344-354): the status is optimistically
reset to `Idle` before the request; the catch block only records an error
message and does not touch the status. `cancelOk` is the
`matchmaking/cancel` request outcome. -/
def sendCancelRequest (cancelOk : Bool) (s : MatchmakingStore) : MatchmakingStore :=
  let s := { s with status := MatchmakingStatus.Idle }
  if cancelOk then s
  else { s with errorMessage := some "Error with matchmaking/cancel" }

/-- `sendReadyRequest` (source lines 356-367): optimistically enter
`MatchAccepted`; on request failure roll back to `Idle` with an error
message. -/
def sendReadyRequest (readyOk : Bool) (s : MatchmakingStore) : MatchmakingStore :=
  let s := { s with status := MatchmakingStatus.MatchAccepted }
  if readyOk then s
  else { s with status := MatchmakingStatus.Idle
                errorMessage := some "Error with matchmaking/ready" }

/-!
## C1: readiness checks versus "needed iff none installed"
-/

/-- `any` over a mapped list tests the composed predicate. -/
theorem list_any_map_general {α β : Type} (f : α → β) (l : List α) (p : β → Bool) :
    (l.map f).any p = l.any (fun a => p (f a)) := by
  induction l with
  | nil => rfl
  | cons a l ih => simp [List.any, ih]

/-- `any` only depends on the predicate's values on the list. -/
theorem list_any_congr_general {α : Type} {p q : α → Bool} (l : List α)
    (h : ∀ a ∈ l, p a = q a) : l.any p = l.any q := by
  induction l with
  | nil => rfl
  | cons a l ih =>
    simp only [List.any_cons, h a (List.mem_cons_self a l),
      ih (fun b hb => h b (List.mem_cons_of_mem a hb))]

/-- C1 counterexample: with acceptable maps `alpha` (installed) and `beta`
(absent), at least one acceptable map is installed, so the claimed rule
"needed iff none of the acceptable items are installed" predicts
`mapsNeeded = false`; `checkIfAnyMapsAreNeeded` returns `true`. -/
theorem C1_counterexample :
    checkIfAnyMapsAreNeeded exMapsInv exMapList ≠
      Except.ok (!(exMapList.any (fun m => mapInstalledInDb exDb m.mapName))) := by
  intro h
  have h' : Except.ok (ε := Unit) true = Except.ok false := h
  exact Bool.noConfusion (Except.ok.inj h')

/-- C1 (amended): for non-empty acceptable lists, `checkIfEngineIsNeeded`
and `checkIfGameIsNeeded` report needed iff none of the acceptable items is
installed, but `checkIfAnyMapsAreNeeded` reports needed iff at least one
acceptable map is absent from the local database or not installed (all
acceptable maps must be installed for maps not to be needed). -/
theorem C1_readiness_checks (db : String → Option DbMap) (inv : InventoryEnv)
    (maps : List MapNameEntry) (engines : List EngineSpec) (games : List GameSpec)
    (hb : inv.bulkGet = okBulkGet db)
    (hm : maps ≠ []) (he : engines ≠ []) (hg : games ≠ []) :
    checkIfAnyMapsAreNeeded inv maps =
        Except.ok (maps.any (fun m => !(mapInstalledInDb db m.mapName))) ∧
    checkIfEngineIsNeeded inv engines =
        !(engines.any (fun e =>
          (inv.availableEngineVersions.map (fun v => v.id)).contains e.version)) ∧
    checkIfGameIsNeeded inv games =
        !(games.any (fun g => inv.availableGameVersions.contains g.springName)) := by
  have hm' : maps.isEmpty = false := by
    cases maps with
    | nil => exact absurd rfl hm
    | cons a l => rfl
  have he' : engines.isEmpty = false := by
    cases engines with
    | nil => exact absurd rfl he
    | cons a l => rfl
  have hg' : games.isEmpty = false := by
    cases games with
    | nil => exact absurd rfl hg
    | cons a l => rfl
  refine ⟨?_, ?_, ?_⟩
  · simp only [checkIfAnyMapsAreNeeded, hm', Bool.false_eq_true, if_false, hb,
      okBulkGet, List.map_map, Function.comp, list_any_map_general]
    congr 1
    apply list_any_congr_general
    intro m _
    cases hdb : db m.mapName <;> simp [mapInstalledInDb, hdb]
  · simp only [checkIfEngineIsNeeded, he', Bool.false_eq_true, if_false,
      list_any_map_general]
  · simp only [checkIfGameIsNeeded, hg', Bool.false_eq_true, if_false,
      list_any_map_general]

/-- C1 witness: the amended characterisation evaluated at the concrete
inventory `exMapsInv` with a two-map, one-engine, one-game playlist. -/
theorem C1_readiness_checks_witness :
    checkIfAnyMapsAreNeeded exMapsInv exMapList =
        Except.ok (exMapList.any (fun m => !(mapInstalledInDb exDb m.mapName))) ∧
    checkIfEngineIsNeeded exMapsInv [{ version := "105.1" }] =
        !([({ version := "105.1" } : EngineSpec)].any (fun e =>
          (exMapsInv.availableEngineVersions.map (fun v => v.id)).contains e.version)) ∧
    checkIfGameIsNeeded exMapsInv [{ springName := "BAR" }] =
        !([({ springName := "BAR" } : GameSpec)].any (fun g =>
          exMapsInv.availableGameVersions.contains g.springName)) :=
  C1_readiness_checks exDb exMapsInv exMapList [{ version := "105.1" }]
    [{ springName := "BAR" }] rfl (by decide) (by decide) (by decide)

/-!
## C2: repeated user/self events with the same assignment
-/

/-- `downloadBattleContent` never changes the session status. -/
theorem downloadBattleContent_fst_status (oc : TaskOutcomes) (b : PrivateBattle)
    (s : MatchmakingStore) : ((downloadBattleContent oc b s).1).status = s.status := rfl

/-- A concrete battle assignment. -/
def exBattle : PrivateBattle where
  username := "u"
  password := "p"
  ip := "127.0.0.1"
  port := 8200
  engine := { version := "105.1" }
  game := { springName := "BAR-game" }
  map := { springName := "DeltaSiegeDry" }

/-- A user/self event carrying the assignment `exBattle`. -/
def exSelfEvent : UserSelfEventData := { user := { currentBattle := some exBattle } }

/-- The initial store in status `MatchAccepted`. -/
def exAcceptedStore : MatchmakingStore :=
  { matchmakingStore with status := MatchmakingStatus.MatchAccepted }

/-- All three real download tasks succeed. -/
def exOutcomes : TaskOutcomes where
  mapOk := true
  engineOk := true
  gameOk := true

/-- C2 counterexample: delivering the identical assignment-carrying
`user/self` event twice while in `MatchAccepted` invokes
`downloadBattleContent` twice — more than the claimed "at most one download
episode". -/
theorem C2_counterexample :
    ¬ (processUserSelfEvents exOutcomes [exSelfEvent, exSelfEvent]
        exAcceptedStore).2 ≤ 1 := by decide

/-- C2 (amended): `onUserSelfEvent` performs no deduplication: every
delivery of an event carrying a battle while the status is `MatchAccepted`
invokes the download orchestrator, so `n` identical deliveries start `n`
download episodes (each restarting via the replace policy of
`downloadBattleContent`). -/
theorem C2_userSelfEvent_invokes_download_each_delivery
    (oc : TaskOutcomes) (d : UserSelfEventData) (battle : PrivateBattle)
    (s : MatchmakingStore) (n : Nat)
    (hb : d.user.currentBattle = some battle)
    (hs : s.status = MatchmakingStatus.MatchAccepted) :
    (processUserSelfEvents oc (List.replicate n d) s).2 = n := by
  induction n generalizing s with
  | zero => rfl
  | succ n ih =>
    have h1 : onUserSelfEvent oc d s = ((downloadBattleContent oc battle s).1, 1) := by
      unfold onUserSelfEvent
      rw [hb]
      simp [hs]
    have hstat : ((downloadBattleContent oc battle s).1).status
        = MatchmakingStatus.MatchAccepted := by
      rw [downloadBattleContent_fst_status]
      exact hs
    simp only [List.replicate_succ, processUserSelfEvents, h1, ih _ hstat]
    omega

/-- C2 witness: two deliveries of `exSelfEvent` in `MatchAccepted` start
exactly two download episodes. -/
theorem C2_userSelfEvent_invokes_download_each_delivery_witness :
    (processUserSelfEvents exOutcomes (List.replicate 2 exSelfEvent)
      exAcceptedStore).2 = 2 :=
  C2_userSelfEvent_invokes_download_each_delivery exOutcomes exSelfEvent exBattle
    exAcceptedStore 2 rfl rfl

/-!
## C3: monotonicity of stored download progress
-/

/-- The progress field addressed by an asset type. -/
def progressField : AssetType → DownloadProgressState → Nat
  | AssetType.map => fun p => p.map
  | AssetType.engine => fun p => p.engine
  | AssetType.game => fun p => p.game

/-- The battle asset name a listener of the given type compares against. -/
def assetNameOf (b : PrivateBattle) : AssetType → String
  | AssetType.map => b.map.springName
  | AssetType.engine => b.engine.version
  | AssetType.game => b.game.springName

/-- C3 counterexample: the map progress listener first stores a report of
0.50, then a later report of 0.30 for the same asset; the decreasing report
is stored, not discarded, so the stored value decreases. -/
theorem C3_counterexample :
    ((createProgressListener exBattle AssetType.map
        { name := "DeltaSiegeDry", progress := 30 }
        (createProgressListener exBattle AssetType.map
          { name := "DeltaSiegeDry", progress := 50 }
          exAcceptedStore)).downloadProgress).map <
    ((createProgressListener exBattle AssetType.map
        { name := "DeltaSiegeDry", progress := 50 }
        exAcceptedStore).downloadProgress).map := by decide

/-- Every simulated progress value stays at most 100. -/
theorem simProgressAt_le_100 (k : Nat) :
    (simProgressAt k).map ≤ 100 ∧ (simProgressAt k).engine ≤ 100 ∧
    (simProgressAt k).game ≤ 100 := by
  cases k with
  | zero => exact ⟨Nat.zero_le _, Nat.zero_le _, Nat.zero_le _⟩
  | succ k =>
    exact ⟨Nat.min_le_right _ _, Nat.min_le_right _ _, Nat.min_le_right _ _⟩

/-- C3 (amended): the real-branch progress listeners store every matching
report verbatim (last write wins, no monotonicity filter), so monotonicity
is not enforced there; within the executed simulated branch the tick
sequence is monotone: each progress value is non-decreasing from one tick
to the next. -/
theorem C3_listener_stores_verbatim_and_sim_monotone :
    (∀ (b : PrivateBattle) (t : AssetType) (info : DownloadInfo)
      (s : MatchmakingStore), info.name = assetNameOf b t →
      progressField t ((createProgressListener b t info s).downloadProgress)
        = info.progress) ∧
    (∀ k : Nat,
      (simProgressAt k).map ≤ (simProgressAt (k + 1)).map ∧
      (simProgressAt k).engine ≤ (simProgressAt (k + 1)).engine ∧
      (simProgressAt k).game ≤ (simProgressAt (k + 1)).game) := by
  constructor
  · intro b t info s h
    cases t <;> simp [createProgressListener, assetNameOf, progressField, h]
  · intro k
    have hle := simProgressAt_le_100 k
    refine ⟨?_, ?_, ?_⟩
    · exact Nat.le_min.mpr ⟨Nat.le_add_right _ _, hle.1⟩
    · exact Nat.le_min.mpr ⟨Nat.le_add_right _ _, hle.2.1⟩
    · exact Nat.le_min.mpr ⟨Nat.le_add_right _ _, hle.2.2⟩

/-- C3 witness: a matching report of 0.30 is stored verbatim, and the
simulated map progress does not decrease from tick 5 to tick 6. -/
theorem C3_listener_stores_verbatim_and_sim_monotone_witness :
    progressField AssetType.map ((createProgressListener exBattle AssetType.map
      { name := "DeltaSiegeDry", progress := 30 }
      exAcceptedStore).downloadProgress) = 30 ∧
    (simProgressAt 5).map ≤ (simProgressAt 6).map :=
  ⟨C3_listener_stores_verbatim_and_sim_monotone.1 exBattle AssetType.map
      { name := "DeltaSiegeDry", progress := 30 } exAcceptedStore rfl,
   (C3_listener_stores_verbatim_and_sim_monotone.2 5).1⟩

/-!
## C4: a failing inventory query during readiness resolution
-/

/-- Unfolding `resolveRecords` over the head playlist. -/
theorem resolveRecords_cons (inv : InventoryEnv) (p : Playlist) (ps : List Playlist) :
    resolveRecords inv (p :: ps) =
      match resolveQueue inv p with
      | some r => (p.id, r) :: resolveRecords inv ps
      | none => resolveRecords inv ps := by
  cases h : resolveQueue inv p <;> simp [resolveRecords, h]

/-- A key that is no playlist's id is absent from the resolved records. -/
theorem lookupRecord_resolveRecords_not_mem (inv : InventoryEnv) (ps : List Playlist)
    (k : String) (h : ∀ p ∈ ps, p.id ≠ k) :
    lookupRecord (resolveRecords inv ps) k = none := by
  induction ps with
  | nil => rfl
  | cons p ps ih =>
    rw [resolveRecords_cons]
    have hrest := ih (fun q hq2 => h q (List.mem_cons_of_mem _ hq2))
    cases hq : resolveQueue inv p with
    | none => exact hrest
    | some r =>
      have hne : (p.id == k) = false := by
        simp [h p (List.mem_cons_self _ _)]
      simpa [lookupRecord, List.find?, hne] using hrest

/-- A playlist whose resolution failed has no entry among the resolved
records (given distinct playlist ids). -/
theorem lookupRecord_resolveRecords_of_none (inv : InventoryEnv)
    (ps : List Playlist) (q : Playlist) (hq : q ∈ ps)
    (hid : (ps.map Playlist.id).Nodup) (hfail : resolveQueue inv q = none) :
    lookupRecord (resolveRecords inv ps) q.id = none := by
  induction ps with
  | nil => cases hq
  | cons p ps ih =>
    rw [List.map_cons, List.nodup_cons] at hid
    rw [resolveRecords_cons]
    rcases List.mem_cons.mp hq with hq1 | hq2
    · subst hq1
      rw [hfail]
      exact lookupRecord_resolveRecords_not_mem inv ps q.id
        (fun p hp hpq => hid.1 (hpq ▸ List.mem_map_of_mem Playlist.id hp))
    · have hrest := ih hq2 hid.2
      cases hp : resolveQueue inv p with
      | none => exact hrest
      | some r =>
        have hne : (p.id == q.id) = false := by
          have : p.id ≠ q.id := by
            intro hcontra
            exact hid.1 (hcontra ▸ List.mem_map_of_mem Playlist.id hq2)
          simp [this]
        simpa [lookupRecord, List.find?, hne] using hrest

/-- A playlist whose resolution succeeded keeps its record among the
resolved records (given distinct playlist ids). -/
theorem lookupRecord_resolveRecords_of_some (inv : InventoryEnv)
    (ps : List Playlist) (q : Playlist) (r : ReadinessRecord) (hq : q ∈ ps)
    (hid : (ps.map Playlist.id).Nodup) (hok : resolveQueue inv q = some r) :
    lookupRecord (resolveRecords inv ps) q.id = some r := by
  induction ps with
  | nil => cases hq
  | cons p ps ih =>
    rw [List.map_cons, List.nodup_cons] at hid
    rw [resolveRecords_cons]
    rcases List.mem_cons.mp hq with hq1 | hq2
    · subst hq1
      rw [hok]
      simp [lookupRecord, List.find?]
    · have hrest := ih hq2 hid.2
      cases hp : resolveQueue inv p with
      | none => exact hrest
      | some r0 =>
        have hne : (p.id == q.id) = false := by
          have : p.id ≠ q.id := by
            intro hcontra
            exact hid.1 (hcontra ▸ List.mem_map_of_mem Playlist.id hq2)
          simp [this]
        simpa [lookupRecord, List.find?, hne] using hrest

/-- Inventory adapter whose map database query always rejects. -/
def failingInv : InventoryEnv where
  bulkGet := fun _ => Except.error ()
  availableEngineVersions := []
  availableGameVersions := []

/-- A playlist with acceptable maps, whose map query will be attempted. -/
def exFailingPlaylist : Playlist where
  id := "2v2"
  name := "Duos"
  maps := [{ mapName := "beta" }]
  engines := [{ version := "105.1" }]
  games := [{ springName := "BAR" }]

/-- A playlist with no acceptable maps, engines or games: all three checks
return without consulting the database. -/
def exEmptyMapsPlaylist : Playlist where
  id := "1v1"
  name := "Solo"
  maps := []
  engines := []
  games := []

/-- C4 counterexample: when the map query of playlist `2v2` rejects during
the refresh, the playlist receives no readiness record at all — it is not
recorded with `mapsNeeded = true` as claimed. -/
theorem C4_counterexample :
    lookupRecord (sendListRequest
        (Except.ok [exFailingPlaylist, exEmptyMapsPlaylist]) failingInv
        matchmakingStore).downloadsRequired "2v2" = none := by decide

/-- C4 (amended): a failing inventory query does not abort resolution for
the other playlists — every playlist whose queries succeed still receives
its record — but the failing playlist is left without any readiness record
(no fail-safe `needed = true` entry) and the refresh surfaces the queue
error message. -/
theorem C4_query_failure_skips_record_but_others_resolve
    (inv : InventoryEnv) (playlists : List Playlist) (s : MatchmakingStore)
    (hid : (playlists.map Playlist.id).Nodup) :
    (∀ q ∈ playlists, resolveQueue inv q = none →
      lookupRecord (sendListRequest (Except.ok playlists) inv s).downloadsRequired
        q.id = none) ∧
    (∀ p ∈ playlists, ∀ r : ReadinessRecord, resolveQueue inv p = some r →
      lookupRecord (sendListRequest (Except.ok playlists) inv s).downloadsRequired
        p.id = some r) ∧
    ((∃ q ∈ playlists, resolveQueue inv q = none) →
      (sendListRequest (Except.ok playlists) inv s).queueError
        = some "Failed to retrieve available queues") := by
  have hdr : (sendListRequest (Except.ok playlists) inv s).downloadsRequired
      = resolveRecords inv playlists := rfl
  refine ⟨?_, ?_, ?_⟩
  · intro q hq hfail
    rw [hdr]
    exact lookupRecord_resolveRecords_of_none inv playlists q hq hid hfail
  · intro p hp r hok
    rw [hdr]
    exact lookupRecord_resolveRecords_of_some inv playlists p r hp hid hok
  · rintro ⟨q, hq, hfail⟩
    have hany : (playlists.map (fun q => (q.id, resolveQueue inv q))).any
        (fun pr => pr.2.isNone) = true := by
      rw [List.any_eq_true]
      exact ⟨(q.id, resolveQueue inv q),
        List.mem_map_of_mem (fun q => (q.id, resolveQueue inv q)) hq,
        by simp [hfail]⟩
    show (if (playlists.map (fun q => (q.id, resolveQueue inv q))).any
        (fun pr => pr.2.isNone) then some "Failed to retrieve available queues"
      else none) = some "Failed to retrieve available queues"
    rw [hany]
    rfl

/-- C4 witness: the amended behaviour evaluated on the concrete refresh in
which playlist `2v2` fails its map query and playlist `1v1` resolves. -/
theorem C4_query_failure_skips_record_but_others_resolve_witness :
    lookupRecord (sendListRequest
        (Except.ok [exFailingPlaylist, exEmptyMapsPlaylist]) failingInv
        matchmakingStore).downloadsRequired "1v1" =
      some { mapsNeeded := false, engineNeeded := false, gameNeeded := false
             engineVersion := "", gameVersion := "" } :=
  (C4_query_failure_skips_record_but_others_resolve failingInv
      [exFailingPlaylist, exEmptyMapsPlaylist] matchmakingStore
      (by decide)).2.1 exEmptyMapsPlaylist (by decide)
    { mapsNeeded := false, engineNeeded := false, gameNeeded := false
      engineVersion := "", gameVersion := "" } rfl

/-!
## C5: atomicity of the readiness-record refresh
-/

/-- Inventory adapter over an empty but reliable map database. -/
def okInv : InventoryEnv where
  bulkGet := okBulkGet (fun _ => none)
  availableEngineVersions := []
  availableGameVersions := []

def exPlaylistA : Playlist where
  id := "A"
  name := "Queue A"
  maps := [{ mapName := "m1" }]
  engines := [{ version := "e1" }]
  games := [{ springName := "g1" }]

def exPlaylistB : Playlist where
  id := "B"
  name := "Queue B"
  maps := [{ mapName := "m2" }]
  engines := [{ version := "e2" }]
  games := [{ springName := "g2" }]

/-- C5 counterexample: while a refresh of the two-playlist list is being
resolved, an observable value of `downloadsRequired` holds exactly one of
the two final records — the callbacks write their records one by one, so
an observer can see partial results. -/
theorem C5_counterexample :
    ((sendListRequestSnapshots okInv [exPlaylistA, exPlaylistB]).getD 1 []).length
      = 1 ∧
    ((sendListRequest (Except.ok [exPlaylistA, exPlaylistB]) okInv
      matchmakingStore).downloadsRequired).length = 2 := by decide

/-- Every resolved record is keyed by the id of one of the refreshed
playlists. -/
theorem resolveRecords_keys_subset (inv : InventoryEnv) (ps : List Playlist) :
    ∀ e ∈ resolveRecords inv ps, e.1 ∈ ps.map Playlist.id := by
  induction ps with
  | nil =>
    intro e he
    cases he
  | cons p ps ih =>
    intro e he
    rw [resolveRecords_cons] at he
    rw [List.map_cons]
    cases hp : resolveQueue inv p with
    | none =>
      rw [hp] at he
      exact List.mem_cons_of_mem _ (ih e he)
    | some r =>
      rw [hp] at he
      rcases List.mem_cons.mp he with h1 | h2
      · rw [h1]
        exact List.mem_cons_self _ _
      · exact List.mem_cons_of_mem _ (ih e h2)

/-- C5 (amended): the refresh is not atomic — the record map is cleared and
then republished one record at a time (each observable snapshot is a prefix
of the final record list, starting from the cleared empty map), but once
the refresh completes, every entry of `downloadsRequired` is keyed by a
playlist of the new list, so no entry from a previous list survives. -/
theorem C5_refresh_publishes_incrementally_but_no_stale_keys
    (inv : InventoryEnv) (playlists : List Playlist) (s : MatchmakingStore)
    (k : String)
    (hk : k ∈ ((sendListRequest (Except.ok playlists) inv s).downloadsRequired.map
      Prod.fst)) :
    k ∈ playlists.map Playlist.id ∧
    (sendListRequestSnapshots inv playlists).head? = some [] ∧
    ∀ snap ∈ sendListRequestSnapshots inv playlists,
      snap = ((sendListRequest (Except.ok playlists) inv s).downloadsRequired).take
        snap.length := by
  have hdr : (sendListRequest (Except.ok playlists) inv s).downloadsRequired
      = resolveRecords inv playlists := rfl
  refine ⟨?_, ?_, ?_⟩
  · rw [hdr] at hk
    rcases List.mem_map.mp hk with ⟨e, he, hek⟩
    rw [← hek]
    exact resolveRecords_keys_subset inv playlists e he
  · unfold sendListRequestSnapshots
    rw [List.range_succ_eq_map]
    rfl
  · intro snap hsnap
    unfold sendListRequestSnapshots at hsnap
    rcases List.mem_map.mp hsnap with ⟨j, hj, hsnapj⟩
    have hjlen : j ≤ (resolveRecords inv playlists).length :=
      Nat.lt_succ_iff.mp (List.mem_range.mp hj)
    rw [hdr, ← hsnapj, List.length_take, Nat.min_eq_left hjlen]

/-- C5 witness: after the concrete two-playlist refresh, the key `A` of the
record map is a playlist id of the new list, snapshots start from the
cleared map, and every snapshot is a prefix of the final record list. -/
theorem C5_refresh_publishes_incrementally_but_no_stale_keys_witness :
    "A" ∈ ([exPlaylistA, exPlaylistB].map Playlist.id) ∧
    (sendListRequestSnapshots okInv [exPlaylistA, exPlaylistB]).head? = some [] ∧
    ∀ snap ∈ sendListRequestSnapshots okInv [exPlaylistA, exPlaylistB],
      snap = ((sendListRequest (Except.ok [exPlaylistA, exPlaylistB]) okInv
        matchmakingStore).downloadsRequired).take snap.length :=
  C5_refresh_publishes_incrementally_but_no_stale_keys okInv
    [exPlaylistA, exPlaylistB] matchmakingStore "A" (by decide)

/-!
## C6: when currentBattle and downloadProgress may be populated
-/

/-- Initial store with a readiness record for the selected queue `1v1`. -/
def exQueueReadyStore : MatchmakingStore :=
  { matchmakingStore with downloadsRequired :=
      [("1v1", { mapsNeeded := false, engineNeeded := false, gameNeeded := false
                 engineVersion := "", gameVersion := "" })] }

/-- A `MatchAccepted` store mid-episode: battle assigned, progress non-zero. -/
def exDirtyStore : MatchmakingStore :=
  { exAcceptedStore with currentBattle := some exBattle
                         isDownloadingContent := true
                         downloadProgress := { map := 40, engine := 36, game := 30 } }

/-- C6 counterexample: `sendQueueRequest` from `Idle` leaves
`currentBattle` populated with the dummy battle while the status settles to
`Searching` (never `MatchAccepted`), and the cancelled event drives the
status back to `Idle` without clearing `currentBattle` or the non-zero
`downloadProgress`. -/
theorem C6_counterexample :
    ((sendQueueRequest (Except.ok []) okInv exOutcomes true exQueueReadyStore).status
        = MatchmakingStatus.Searching ∧
     (sendQueueRequest (Except.ok []) okInv exOutcomes true
        exQueueReadyStore).currentBattle = some dummyBattle) ∧
    ((onCancelledEvent exDirtyStore).status = MatchmakingStatus.Idle ∧
     (onCancelledEvent exDirtyStore).currentBattle = some exBattle ∧
     (onCancelledEvent exDirtyStore).downloadProgress
        = { map := 40, engine := 36, game := 30 }) := by decide

/-- C6 (amended): the battle-download state is not confined to
`MatchAccepted`: whenever the selected queue has a readiness record,
`sendQueueRequest` starts a (dummy) download episode and leaves
`currentBattle` populated while the status settles to `Searching` (or rolls
back to `Idle`), and the transitions back to `Idle` (cancelled event,
cancel request) leave `currentBattle` and `downloadProgress` untouched. -/
theorem C6_battle_state_not_confined_to_MatchAccepted
    (listResponse : Except Unit (List Playlist)) (inv : InventoryEnv)
    (oc : TaskOutcomes) (queueOk : Bool) (s : MatchmakingStore)
    (h : (lookupRecord s.downloadsRequired s.selectedQueue).isSome = true) :
    (sendQueueRequest listResponse inv oc queueOk s).currentBattle
        = some dummyBattle ∧
    (sendQueueRequest listResponse inv oc queueOk s).status
        = (if queueOk then MatchmakingStatus.Searching else MatchmakingStatus.Idle) ∧
    (∀ t : MatchmakingStore,
      (onCancelledEvent t).status = MatchmakingStatus.Idle ∧
      (onCancelledEvent t).currentBattle = t.currentBattle ∧
      (onCancelledEvent t).downloadProgress = t.downloadProgress) ∧
    (∀ (t : MatchmakingStore) (cancelOk : Bool),
      (sendCancelRequest cancelOk t).currentBattle = t.currentBattle ∧
      (sendCancelRequest cancelOk t).downloadProgress = t.downloadProgress) := by
  have hn : (lookupRecord s.downloadsRequired s.selectedQueue).isNone = false := by
    cases hl : lookupRecord s.downloadsRequired s.selectedQueue with
    | none => rw [hl] at h; cases h
    | some r => rfl
  refine ⟨?_, ?_, ?_, ?_⟩
  · cases queueOk <;>
      simp [sendQueueRequest, hn, downloadBattleContent, downloadStart,
        downloadSimulated, testAssetDownload]
  · cases queueOk <;>
      simp [sendQueueRequest, hn, downloadBattleContent, downloadStart,
        downloadSimulated, testAssetDownload]
  · intro t
    exact ⟨rfl, rfl, rfl⟩
  · intro t cancelOk
    cases cancelOk <;> exact ⟨rfl, rfl⟩

/-- C6 witness: the amended behaviour evaluated on the concrete `Idle`
store `exQueueReadyStore` with a successful queue request. -/
theorem C6_battle_state_not_confined_to_MatchAccepted_witness :
    (sendQueueRequest (Except.ok []) okInv exOutcomes true
        exQueueReadyStore).currentBattle = some dummyBattle ∧
    (sendQueueRequest (Except.ok []) okInv exOutcomes true exQueueReadyStore).status
        = (if true then MatchmakingStatus.Searching else MatchmakingStatus.Idle) ∧
    (∀ t : MatchmakingStore,
      (onCancelledEvent t).status = MatchmakingStatus.Idle ∧
      (onCancelledEvent t).currentBattle = t.currentBattle ∧
      (onCancelledEvent t).downloadProgress = t.downloadProgress) ∧
    (∀ (t : MatchmakingStore) (cancelOk : Bool),
      (sendCancelRequest cancelOk t).currentBattle = t.currentBattle ∧
      (sendCancelRequest cancelOk t).downloadProgress = t.downloadProgress) :=
  C6_battle_state_not_confined_to_MatchAccepted (Except.ok []) okInv exOutcomes
    true exQueueReadyStore (by decide)

/-!
## C7: episode outcome versus task outcomes
-/

/-- The two alerts of the orchestrator are distinct. -/
theorem successAlert_ne_failureAlert : successAlert ≠ failureAlert := by decide

/-- The simulated interval resolves with all three values complete. -/
theorem simFinalProgress_complete :
    simFinalProgress = { map := 100, engine := 100, game := 100 } := by decide

/-- C7: a download episode emits the success notification iff all three
asset tasks complete without failure, in which case all three progress
values are 1 (=100); if any task fails, the failure notification is emitted
and the success notification is not; the active-episode flag is false on
exit. In the simulated branch no task can fail, so it always succeeds with
full progress. -/
theorem C7_success_iff_all_tasks_complete (oc : TaskOutcomes) (b : PrivateBattle)
    (s : MatchmakingStore) :
    ((downloadReal oc (downloadStart b s)).2 = [successAlert] ↔
      oc.mapOk = true ∧ oc.engineOk = true ∧ oc.gameOk = true) ∧
    (oc.mapOk = true ∧ oc.engineOk = true ∧ oc.gameOk = true →
      ((downloadReal oc (downloadStart b s)).1).downloadProgress
        = { map := 100, engine := 100, game := 100 }) ∧
    (¬(oc.mapOk = true ∧ oc.engineOk = true ∧ oc.gameOk = true) →
      (downloadReal oc (downloadStart b s)).2 = [failureAlert] ∧
      (downloadReal oc (downloadStart b s)).2 ≠ [successAlert]) ∧
    ((downloadReal oc (downloadStart b s)).1).isDownloadingContent = false ∧
    ((downloadSimulated (downloadStart b s)).2 = [successAlert] ∧
     ((downloadSimulated (downloadStart b s)).1).downloadProgress
        = { map := 100, engine := 100, game := 100 } ∧
     ((downloadSimulated (downloadStart b s)).1).isDownloadingContent = false) := by
  obtain ⟨mok, eok, gok⟩ := oc
  cases mok <;> cases eok <;> cases gok <;>
    simp [downloadReal, downloadStart, downloadSimulated, simFinalProgress_complete,
      successAlert, failureAlert]

/-- C7 witness: with all three tasks succeeding, the real branch leaves all
three progress values complete. -/
theorem C7_success_iff_all_tasks_complete_witness :
    ((downloadReal exOutcomes (downloadStart exBattle matchmakingStore)).1).downloadProgress
      = { map := 100, engine := 100, game := 100 } :=
  (C7_success_iff_all_tasks_complete exOutcomes exBattle matchmakingStore).2.1
    ⟨rfl, rfl, rfl⟩

/-!
## C8: cancel always ends in Idle
-/

/-- C8: the user cancel command sets the status to `Idle` before the
request, and the failure path only records an error message, so the status
is `Idle` at the end of handling regardless of the request outcome. -/
theorem C8_cancel_always_ends_Idle (cancelOk : Bool) (s : MatchmakingStore) :
    (sendCancelRequest cancelOk s).status = MatchmakingStatus.Idle := by
  cases cancelOk <;> rfl

/-!
## C9: only the simulated branch is reachable
-/

/-- C9: `testAssetDownload` is true, so `downloadBattleContent` always runs
the simulated branch regardless of the real-task outcomes; each simulated
tick adds 8/12/6 hundredths (0.08 map, 0.12 engine, 0.06 game) capped at
100, and the interval resolves at tick 17, the first tick at which all
three values have reached 1. -/
theorem C9_only_simulated_branch_runs (oc : TaskOutcomes) (b : PrivateBattle)
    (s : MatchmakingStore) :
    testAssetDownload = true ∧
    downloadBattleContent oc b s = downloadSimulated (downloadStart b s) ∧
    (∀ k : Nat, simProgressAt (k + 1) =
      { map := min ((simProgressAt k).map + 8) 100
        engine := min ((simProgressAt k).engine + 12) 100
        game := min ((simProgressAt k).game + 6) 100 }) ∧
    simulateProgress 17 { map := 0, engine := 0, game := 0 } = some simFinalProgress ∧
    simDone simFinalProgress = true ∧
    (∀ j : Nat, j < 17 → simDone (simProgressAt j) = false) :=
  ⟨rfl, rfl, fun _ => rfl, rfl, rfl, by decide⟩

/-- C9 witness: at tick 16 the simulated episode has not yet resolved. -/
theorem C9_only_simulated_branch_runs_witness :
    simDone (simProgressAt 16) = false :=
  (C9_only_simulated_branch_runs exOutcomes exBattle matchmakingStore).2.2.2.2.2
    16 (by decide)

/-!
## C10: replace policy when a download episode is already active
-/

/-- C10: `downloadBattleContent` never rejects a new episode: its prologue
unconditionally overwrites `currentBattle`, raises the active-episode flag
and zeroes the progress, and its result does not depend on whether an
episode was already active (replace policy, not reject). -/
theorem C10_download_replaces_previous_episode (oc : TaskOutcomes)
    (b : PrivateBattle) (s : MatchmakingStore) :
    (downloadStart b s).currentBattle = some b ∧
    (downloadStart b s).isDownloadingContent = true ∧
    (downloadStart b s).downloadProgress = { map := 0, engine := 0, game := 0 } ∧
    downloadBattleContent oc b { s with isDownloadingContent := true }
      = downloadBattleContent oc b { s with isDownloadingContent := false } ∧
    downloadBattleContent oc b s = downloadSimulated (downloadStart b s) :=
  ⟨rfl, rfl, rfl, rfl, rfl⟩

